import Mathlib

/-!
# Verification of the renegade relayer against its specification

This file gives a shallow embedding, in Lean 4, of the parts of the
renegade relayer's Rust source that the specification's claims are about:

* the non-native key word split/combine helpers (`circuit-types/src/keychain.rs`),
* the two `MatchResult` scalar-vector serializers (`circuits/src/types/match.rs`),
* the order-book state applicator (`statev2/src/applicator/order_book.rs`),
* the wallet helpers (`common/src/types/wallet.rs`),
* the heartbeat peer-expiry logic (`core/src/gossip/heartbeat.rs`),
* the gossip-server validity-proof verification (`workers/gossip-server/src/orderbook.rs`).

Machine integers are modelled as `Nat` with explicit reductions where the
source reduces; fallible code returns `Except`/`Option`; stateful code is
explicit state passing.  Chain queries, circuit verifiers and hash
primitives that live outside the embedded source are passed in as explicit
function parameters, so every definition stays executable.
-/

namespace Renegade

/-! ## Keychain: non-native key word splitting (`circuit-types/src/keychain.rs`) -/

namespace Keychain

/-- The number of bytes used in a single scalar to represent a key
(`SCALAR_MAX_BYTES` in `keychain.rs`). -/
def SCALAR_MAX_BYTES : Nat := 31

/-- The number of words needed to represent a non-native root key
(`ROOT_KEY_WORDS` in `keychain.rs`). -/
def ROOT_KEY_WORDS : Nat := 2

/-- The order of the Ristretto255 scalar field: `Scalar::from_bytes_mod_order`
reduces a 32-byte little-endian value modulo this prime, and every canonical
scalar value is smaller than it. -/
def ristrettoGroupOrder : Nat := 2 ^ 252 + 27742317777372353535851937790883648493

/-- One word covers `SCALAR_MAX_BYTES = 31` little-endian bytes, i.e. 248 bits. -/
def wordModulus : Nat := 2 ^ (SCALAR_MAX_BYTES * 8)

/-- `NonNativeKey::split_biguint_into_words`: chunk the little-endian bytes of
`val` into groups of `SCALAR_MAX_BYTES`, interpret each chunk as a scalar via
`Scalar::from_bytes_mod_order` (reduction modulo the group order), and pad with
zero scalars up to `keyWords` words.  At the value level the `i`-th chunk of the
byte string is `(val / wordModulus ^ i) % wordModulus`. -/
def split_biguint_into_words : (keyWords : Nat) → (val : Nat) → List Nat
  | 0, _ => []
  | keyWords + 1, val =>
      (val % wordModulus) % ristrettoGroupOrder ::
        split_biguint_into_words keyWords (val / wordModulus)

/-- `NonNativeKey::combine_words_into_biguint`: take the first
`SCALAR_MAX_BYTES` bytes of each word's canonical 32-byte encoding (at the
value level, the word modulo `wordModulus`) and concatenate them
little-endian. -/
def combine_words_into_biguint : (keyWords : List Nat) → Nat
  | [] => 0
  | w :: ws => w % wordModulus + wordModulus * combine_words_into_biguint ws

/-- A non-native key, represented by its scalar words
(`NonNativeKey<KEY_WORDS>` in `keychain.rs`). -/
structure NonNativeKey where
  /-- The `Scalar` words used to represent the key, as canonical values. -/
  key_words : List Nat
  deriving Repr, DecidableEq

/-- `From<&BigUint> for NonNativeKey` (`keychain.rs`). -/
def NonNativeKey.ofBiguint (keyWords : Nat) (val : Nat) : NonNativeKey :=
  { key_words := split_biguint_into_words keyWords val }

end Keychain

/-! ## Match result serializers (`circuits/src/types/match.rs`) -/

namespace MatchTypes

/-- The number of scalars in a match tuple for serialization/deserialization
(`MATCH_SIZE_SCALARS` in `match.rs`). -/
def MATCH_SIZE_SCALARS : Nat := 5

/-- `AuthenticatedMatchResult<N, S>`: a match result whose fields are
authenticated shared scalars.  The scalar type is left abstract. -/
structure AuthenticatedMatchResult (α : Type) where
  /-- The mint of the order token in the asset pair being matched -/
  quote_mint : α
  /-- The mint of the base token in the asset pair being matched -/
  base_mint : α
  /-- The amount of the quote token exchanged by this match -/
  quote_amount : α
  /-- The amount of the base token exchanged by this match -/
  base_amount : α
  /-- The direction of the match -/
  direction : α
  deriving Repr, DecidableEq

/-- `From<AuthenticatedMatchResult<N, S>> for Vec<AuthenticatedScalar<N, S>>`:
serialization pushes the fields in declaration order
(quote_mint, base_mint, quote_amount, base_amount, direction). -/
def authMatchResultToScalars {α : Type} (m : AuthenticatedMatchResult α) : List α :=
  [m.quote_mint, m.base_mint, m.quote_amount, m.base_amount, m.direction]

/-- `TryFrom<&[AuthenticatedScalar<N, S>]> for AuthenticatedMatchResult<N, S>`:
deserialization errors unless exactly `MATCH_SIZE_SCALARS` values are given,
then reads `quote_mint := values[0]`, `quote_amount := values[1]`,
`base_mint := values[2]`, `base_amount := values[3]`,
`direction := values[4]`. -/
def authMatchResultFromScalars {α : Type} :
    List α → Except String (AuthenticatedMatchResult α)
  | [v0, v1, v2, v3, v4] =>
      .ok { quote_mint := v0, quote_amount := v1, base_mint := v2,
            base_amount := v3, direction := v4 }
  | values => .error ("Expected 12 elements, got " ++ toString values.length)

end MatchTypes

/-! ## Order-book state applicator (`statev2/src/applicator/order_book.rs`) -/

namespace OrderBook

/-- An order identifier (a UUID in the source). -/
abbrev OrderIdentifier := Nat

/-- A nullifier (a `Scalar` in the source). -/
abbrev Nullifier := Nat

/-- A cluster identifier. -/
abbrev ClusterId := Nat

/-- Modelled from the spec: the state of a network order,
`state ∈ {Received, Verified, Matched, Cancelled}` (§3, "Network order");
the type itself (`common::types::network_order::NetworkOrderState`) is outside
the source extract. -/
inductive NetworkOrderState where
  | Received
  | Verified
  | Matched
  | Cancelled
  deriving Repr, DecidableEq

/-- The statement of a `VALID REBLIND` proof; the fields consumed by the
embedded source are the original-shares nullifier
(`statevt2` applicator re-indexing) and the Merkle root
(gossip-server verification). -/
structure ValidReblindStatement where
  /-- The nullifier of the original wallet shares -/
  original_shares_nullifier : Nullifier
  /-- The Merkle root the reblind proof opens against -/
  merkle_root : Nat
  deriving Repr, DecidableEq

/-- A `VALID REBLIND` proof with its statement, witness commitment and proof
(`proof_bundles::ValidReblindBundle`); commitment and proof are opaque. -/
structure ReblindProofData where
  /-- The proof statement -/
  statement : ValidReblindStatement
  /-- The witness commitment -/
  commitment : Nat
  /-- The opaque proof object -/
  proof : Nat
  deriving Repr, DecidableEq

/-- A `VALID COMMITMENTS` proof with its opaque statement, witness commitment
and proof. -/
structure CommitmentsProofData where
  /-- The proof statement (opaque to the embedded code) -/
  statement : Nat
  /-- The witness commitment -/
  commitment : Nat
  /-- The opaque proof object -/
  proof : Nat
  deriving Repr, DecidableEq

/-- A validity proof bundle: paired `VALID REBLIND` and `VALID COMMITMENTS`
proofs (`common::types::proof_bundles::OrderValidityProofBundle`). -/
structure OrderValidityProofBundle where
  /-- The reblind proof of the bundle -/
  reblind_proof : ReblindProofData
  /-- The commitments proof of the bundle -/
  commitment_proof : CommitmentsProofData
  deriving Repr, DecidableEq

/-- Modelled from the spec: a network order
`{id, public_share_nullifier, cluster, state, validity_proofs?,
validity_proof_witnesses?, timestamp, local}` (§3, "Network order"); the
record type itself is outside the source extract, its fields are those
constructed in the applicator's tests. -/
structure NetworkOrder where
  /-- The order identifier -/
  id : OrderIdentifier
  /-- The nullifier of the wallet shares the order was last proved against -/
  public_share_nullifier : Nullifier
  /-- The cluster managing the order -/
  cluster : ClusterId
  /-- The lifecycle state of the order -/
  state : NetworkOrderState
  /-- The validity proof bundle, if one has been attached -/
  validity_proofs : Option OrderValidityProofBundle
  /-- The validity proof witness bundle (opaque), if one has been attached -/
  validity_proof_witnesses : Option Nat
  /-- The time the order was received -/
  timestamp : Nat
  /-- Whether the order is managed by the local cluster (the source field is
  named `local`, a Lean keyword) -/
  is_local : Bool
  deriving Repr, DecidableEq

instance : Inhabited NetworkOrder :=
  ⟨⟨0, 0, 0, .Received, none, none, 0, false⟩⟩

/-- The default priority for a cluster (`CLUSTER_DEFAULT_PRIORITY`). -/
def CLUSTER_DEFAULT_PRIORITY : Nat := 1

/-- The default priority for an order (`ORDER_DEFAULT_PRIORITY`). -/
def ORDER_DEFAULT_PRIORITY : Nat := 1

/-- The match priority for an order (`OrderPriority` in `order_book.rs`). -/
structure OrderPriority where
  /-- The priority of the cluster that the order is managed by -/
  cluster_priority : Nat
  /-- The priority of the order itself -/
  order_priority : Nat
  deriving Repr, DecidableEq

/-- A message on the system bus, as published by the order-book applicator
(`SystemBusMessage::NewOrder` / `SystemBusMessage::OrderStateChange`). -/
inductive SystemBusMessage where
  | NewOrder (order : NetworkOrder)
  | OrderStateChange (order : NetworkOrder)
  deriving Repr, DecidableEq

/-- The applicator error type; only the `MissingEntry` variant is reachable in
the embedded fragment (storage errors are not modelled: reads and writes of
the embedded store always succeed). -/
inductive StateApplicatorError where
  | MissingEntry (msg : String)
  deriving Repr

/-- The database state behind the applicator: the `ORDERS_TABLE` holds both
`order:{id}` keys (order records) and `nullifier:{n}` keys (nullifier sets);
the two key spaces are disjoint strings, modelled as two maps.  The
`PRIORITIES_TABLE` holds cluster and order priorities.  The system bus is the
list of published messages, in order. -/
structure ApplicatorState where
  /-- `ORDERS_TABLE`, keys `order:{id}` -/
  orders : OrderIdentifier → Option NetworkOrder
  /-- `ORDERS_TABLE`, keys `nullifier:{n}` -/
  nullifier_sets : Nullifier → Option (List OrderIdentifier)
  /-- `PRIORITIES_TABLE`, order-id keys -/
  priorities : OrderIdentifier → Option OrderPriority
  /-- `PRIORITIES_TABLE`, cluster-id keys -/
  cluster_priorities : ClusterId → Option Nat
  /-- Messages published to the system bus, oldest first -/
  bus : List SystemBusMessage

/-- `read_nullifier_set`: read the set for a nullifier, defaulting to empty
(`unwrap_or_default`). -/
def read_nullifier_set (nullifier : Nullifier) (st : ApplicatorState) :
    List OrderIdentifier :=
  (st.nullifier_sets nullifier).getD []

/-- `write_nullifier_set`: overwrite the set stored for a nullifier. -/
def write_nullifier_set (nullifier : Nullifier) (s : List OrderIdentifier)
    (st : ApplicatorState) : ApplicatorState :=
  { st with nullifier_sets := Function.update st.nullifier_sets nullifier (some s) }

/-- `append_to_nullifier_set`: push the order id onto the set only if it is
not already present. -/
def append_to_nullifier_set (nullifier : Nullifier) (order_id : OrderIdentifier)
    (st : ApplicatorState) : ApplicatorState :=
  let nullifier_set := read_nullifier_set nullifier st
  if order_id ∈ nullifier_set then st
  else write_nullifier_set nullifier (nullifier_set ++ [order_id]) st

/-- `update_order_nullifier`: remove the order from the old nullifier's set,
then append it to the new nullifier's set. -/
def update_order_nullifier (order_id : OrderIdentifier)
    (old_nullifier new_nullifier : Nullifier) (st : ApplicatorState) :
    ApplicatorState :=
  let old_set := read_nullifier_set old_nullifier st
  let updated_old_set := old_set.filter (fun id => id ≠ order_id)
  let st := write_nullifier_set old_nullifier updated_old_set st
  append_to_nullifier_set new_nullifier order_id st

/-- `read_order_info`: read an order record without erroring when absent. -/
def read_order_info (order_id : OrderIdentifier) (st : ApplicatorState) :
    Option NetworkOrder :=
  st.orders order_id

/-- `read_order_info_unchecked`: read an order record, erroring when absent. -/
def read_order_info_unchecked (order_id : OrderIdentifier)
    (st : ApplicatorState) : Except StateApplicatorError NetworkOrder :=
  match read_order_info order_id st with
  | some order => .ok order
  | none => .error (.MissingEntry "Order missing from message")

/-- `write_order_info`: write an order record under its own id. -/
def write_order_info (order : NetworkOrder) (st : ApplicatorState) :
    ApplicatorState :=
  { st with orders := Function.update st.orders order.id (some order) }

/-- `cancel_order_with_tx`: set the order's state to `Cancelled`, clear its
validity proofs and witnesses, write it back, and publish an
`OrderStateChange` message. -/
def cancel_order_with_tx (order_id : OrderIdentifier) (st : ApplicatorState) :
    Except StateApplicatorError ApplicatorState := do
  let order ← read_order_info_unchecked order_id st
  let order := { order with
    state := .Cancelled
    validity_proof_witnesses := none
    validity_proofs := none }
  let st := write_order_info order st
  return { st with bus := st.bus ++ [.OrderStateChange order] }

/-- `nullify_orders_with_tx`: cancel every order in the nullifier's set. -/
def nullify_orders_with_tx (nullifier : Nullifier) (st : ApplicatorState) :
    Except StateApplicatorError ApplicatorState :=
  (read_nullifier_set nullifier st).foldlM
    (fun st order_id => cancel_order_with_tx order_id st) st

/-- `nullify_orders`: the public applicator entry point; opens a write
transaction, runs `nullify_orders_with_tx` and commits (the commit itself is
modelled as always succeeding). -/
def nullify_orders (nullifier : Nullifier) (st : ApplicatorState) :
    Except StateApplicatorError ApplicatorState :=
  nullify_orders_with_tx nullifier st

/-- `add_order_with_tx`: re-index the order's nullifier set membership, then
write the order record. -/
def add_order_with_tx (order : NetworkOrder) (st : ApplicatorState) :
    ApplicatorState :=
  let st :=
    match read_order_info order.id st with
    | some info =>
        update_order_nullifier order.id info.public_share_nullifier
          order.public_share_nullifier st
    | none => append_to_nullifier_set order.public_share_nullifier order.id st
  write_order_info order st

/-- `get_cluster_priority_with_tx`: read a cluster's priority, defaulting to
`CLUSTER_DEFAULT_PRIORITY`. -/
def get_cluster_priority_with_tx (cluster_id : ClusterId)
    (st : ApplicatorState) : Nat :=
  (st.cluster_priorities cluster_id).getD CLUSTER_DEFAULT_PRIORITY

/-- `write_order_priority_with_tx`: write the order's priority from its
cluster's priority and the default order priority. -/
def write_order_priority_with_tx (order : NetworkOrder) (st : ApplicatorState) :
    ApplicatorState :=
  let cluster_priority := get_cluster_priority_with_tx order.cluster st
  let priority : OrderPriority :=
    { cluster_priority, order_priority := ORDER_DEFAULT_PRIORITY }
  { st with priorities := Function.update st.priorities order.id (some priority) }

/-- `new_order`: index the order's priority and record, then publish a
`NewOrder` message. -/
def new_order (order : NetworkOrder) (st : ApplicatorState) : ApplicatorState :=
  let st := write_order_priority_with_tx order st
  let st := add_order_with_tx order st
  { st with bus := st.bus ++ [.NewOrder order] }

/-- `attach_validity_proof_with_tx`: re-index the order under the proof's
nullifier when it changed, then mark the order `Verified` with the proof
attached. -/
def attach_validity_proof_with_tx (order_id : OrderIdentifier)
    (proof : OrderValidityProofBundle) (st : ApplicatorState) :
    Except StateApplicatorError ApplicatorState := do
  let order_info ← read_order_info_unchecked order_id st
  let prev_nullifier := order_info.public_share_nullifier
  let new_nullifier := proof.reblind_proof.statement.original_shares_nullifier
  let st :=
    if prev_nullifier ≠ new_nullifier then
      update_order_nullifier order_id prev_nullifier new_nullifier st
    else st
  let order_info := { order_info with
    state := .Verified
    public_share_nullifier := proof.reblind_proof.statement.original_shares_nullifier
    validity_proofs := some proof }
  return write_order_info order_info st

/-- `add_order_validity_proof`: attach the proof, then publish the updated
order record as an `OrderStateChange` message. -/
def add_order_validity_proof (order_id : OrderIdentifier)
    (proof : OrderValidityProofBundle) (st : ApplicatorState) :
    Except StateApplicatorError ApplicatorState := do
  let st ← attach_validity_proof_with_tx order_id proof st
  let order_info ← read_order_info_unchecked order_id st
  return { st with bus := st.bus ++ [.OrderStateChange order_info] }

/-- The order-book applicator operations a state transition can invoke. -/
inductive OrderBookOp where
  | newOrder (order : NetworkOrder)
  | addValidityProof (order_id : OrderIdentifier) (proof : OrderValidityProofBundle)
  | nullifyOrders (nullifier : Nullifier)

/-- Apply one applicator operation; a failing operation aborts its write
transaction, leaving the state unchanged. -/
def applyOrderBookOp (op : OrderBookOp) (st : ApplicatorState) : ApplicatorState :=
  match op with
  | .newOrder order => new_order order st
  | .addValidityProof order_id proof =>
      match add_order_validity_proof order_id proof st with
      | .ok st' => st'
      | .error _ => st
  | .nullifyOrders nullifier =>
      match nullify_orders nullifier st with
      | .ok st' => st'
      | .error _ => st

/-- Apply a sequence of applicator operations, oldest first. -/
def applyOrderBookOps (ops : List OrderBookOp) (st : ApplicatorState) :
    ApplicatorState :=
  ops.foldl (fun st op => applyOrderBookOp op st) st

/-- The cancelled form of an order record, as written by
`cancel_order_with_tx`. -/
def cancelRecord (order : NetworkOrder) : NetworkOrder :=
  { order with
    state := .Cancelled
    validity_proof_witnesses := none
    validity_proofs := none }

/-- A concrete validity proof bundle used to instantiate theorems. -/
def sampleBundle : OrderValidityProofBundle :=
  { reblind_proof := { statement := { original_shares_nullifier := 5, merkle_root := 77 }
                       commitment := 0, proof := 0 }
    commitment_proof := { statement := 0, commitment := 0, proof := 0 } }

/-- A concrete order under nullifier 5, used to instantiate theorems. -/
def sampleOrder1 : NetworkOrder :=
  { id := 1, public_share_nullifier := 5, cluster := 0, state := .Received
    validity_proofs := none, validity_proof_witnesses := none, timestamp := 10
    is_local := false }

/-- A second concrete order under nullifier 5, carrying proofs and a witness
bundle. -/
def sampleOrder2 : NetworkOrder :=
  { id := 2, public_share_nullifier := 5, cluster := 0, state := .Verified
    validity_proofs := some sampleBundle, validity_proof_witnesses := some 7
    timestamp := 11, is_local := true }

/-- A concrete order under nullifier 9, used to instantiate theorems. -/
def sampleOrder3 : NetworkOrder :=
  { id := 3, public_share_nullifier := 9, cluster := 0, state := .Received
    validity_proofs := none, validity_proof_witnesses := none, timestamp := 12
    is_local := false }

/-- A concrete order book holding the three sample orders, indexed
consistently by id and by nullifier. -/
def sampleBook : ApplicatorState :=
  { orders := fun oid =>
      if oid = 1 then some sampleOrder1
      else if oid = 2 then some sampleOrder2
      else if oid = 3 then some sampleOrder3
      else none
    nullifier_sets := fun n =>
      if n = 5 then some [1, 2] else if n = 9 then some [3] else none
    priorities := fun _ => none
    cluster_priorities := fun _ => none
    bus := [] }

end OrderBook

/-! ## Wallet helpers (`common/src/types/wallet.rs`) -/

namespace WalletTypes

/-- Modelled from the spec: a balance `{mint, amount}` (§3); the type itself
(`circuit_types::balance::Balance`) is outside the source extract.  The mint
is a large unsigned integer (ERC-20 address), the amount an unsigned
integer. -/
structure Balance where
  /-- The mint (ERC-20 address) of the token -/
  mint : Nat
  /-- The amount of the token held -/
  amount : Nat
  deriving Repr, DecidableEq

/-- The all-zero default balance (`Balance::default()`). -/
def defaultBalance : Balance := { mint := 0, amount := 0 }

/-- A fee tuple (`circuit_types::fee::Fee`): settle key, gas token address,
gas token amount, and percentage fee (a fixed-point value, modelled by its
representation). -/
structure Fee where
  /-- The public settle key of the cluster collecting fees -/
  settle_key : Nat
  /-- The mint (ERC-20 address) of the token used to pay gas -/
  gas_addr : Nat
  /-- The amount of the mint token to use for gas -/
  gas_token_amount : Nat
  /-- The percentage fee the cluster takes on match, as its fixed-point
  representation -/
  percentage_fee : Nat
  deriving Repr, DecidableEq

/-- `Fee::default()`: the all-zero fee. -/
def defaultFee : Fee :=
  { settle_key := 0, gas_addr := 0, gas_token_amount := 0, percentage_fee := 0 }

/-- `Fee::is_default`: equality with the default fee (`fee.rs`). -/
def Fee.isDefault (f : Fee) : Bool := f = defaultFee

/-- Modelled from the spec: an order's side, `side ∈ {buy, sell}` (§3). -/
inductive OrderSide where
  | Buy
  | Sell
  deriving Repr, DecidableEq

/-- Modelled from the spec: an order
`{quote_mint, base_mint, side, amount, price}` (§3); the type itself
(`circuit_types::order::Order`) is outside the source extract. -/
structure Order where
  /-- The quote token mint of the pair -/
  quote_mint : Nat
  /-- The base token mint of the pair -/
  base_mint : Nat
  /-- The side the order is on -/
  side : OrderSide
  /-- The order amount -/
  amount : Nat
  /-- The limit price -/
  price : Nat
  deriving Repr, DecidableEq

/-- `Order::default()`: the all-zero buy order. -/
def defaultOrder : Order :=
  { quote_mint := 0, base_mint := 0, side := .Buy, amount := 0, price := 0 }

/-- The public keys given to the relayer (`PublicKeyChain` in
`keychain.rs`): the non-native root key and the match identification key. -/
structure PublicKeyChain where
  /-- The public root key -/
  pk_root : Keychain.NonNativeKey
  /-- The public match key -/
  pk_match : Nat
  deriving Repr, DecidableEq

/-- The private keys the relayer holds (`PrivateKeyChain` in `wallet.rs`):
optionally `sk_root` (the "super relayer" case) and always `sk_match`. -/
structure PrivateKeyChain where
  /-- The root signing key, held only by super relayers -/
  sk_root : Option Nat
  /-- The match private key -/
  sk_match : Nat
  deriving Repr, DecidableEq

/-- The full keychain handed to the relayer (`KeyChain` in `wallet.rs`). -/
structure KeyChain where
  /-- The public keys in the wallet -/
  public_keys : PublicKeyChain
  /-- The secret keys in the wallet -/
  secret_keys : PrivateKeyChain
  deriving Repr, DecidableEq

/-- A wallet managed by the local relayer (`Wallet` in `wallet.rs`).  The
insertion-ordered `IndexMap`s for orders and balances are modelled as
key-value lists with unique keys; secret-share vectors are modelled by their
scalar serializations (`to_scalars`). -/
structure Wallet where
  /-- The wallet identifier -/
  wallet_id : Nat
  /-- The orders in the wallet, in insertion order -/
  orders : List (Nat × Order)
  /-- The balances in the wallet, keyed by mint, in insertion order -/
  balances : List (Nat × Balance)
  /-- The fees in the wallet -/
  fees : List Fee
  /-- The keys the relayer has access to for this wallet -/
  key_chain : KeyChain
  /-- The wallet blinder -/
  blinder : Nat
  /-- Wallet metadata: the replicating peer ids -/
  metadata : List Nat
  /-- The private secret shares of the wallet, serialized to scalars -/
  private_shares : List Nat
  /-- The blinded public secret shares of the wallet, serialized to scalars -/
  blinded_public_shares : List Nat
  /-- The Merkle authentication path, when indexed -/
  merkle_proof : Option (List Nat)
  /-- The number of new on-chain roots seen since `VALID COMMITMENTS` was
  last proved for this wallet -/
  proof_staleness : Nat
  deriving Repr, DecidableEq

/-- `IndexMap::get`: look up the (unique) entry with the given key. -/
def indexMapGet {β : Type} (m : List (Nat × β)) (k : Nat) : Option β :=
  (m.find? (fun kv => kv.1 = k)).map (fun kv => kv.2)

/-- `needs_new_commitment_proof` (`wallet.rs`): decides whether the wallet's
orders need new commitment proofs.  The source hard-codes this to `false`
("written abstractly to allow us to change the logic ... down the line"). -/
def needs_new_commitment_proof (_w : Wallet) : Bool := false

/-- The mint the local party will be spending if the order is matched: the
`order_mint` binding inside `get_balance_and_fee_for_order`. -/
def order_spend_mint (order : Order) : Nat :=
  match order.side with
  | .Buy => order.quote_mint
  | .Sell => order.base_mint

/-- `get_balance_and_fee_for_order` (`wallet.rs`): the balance spent by the
order, the first non-default fee, and that fee's gas balance, provided the
gas balance covers the fee's gas token amount. -/
def get_balance_and_fee_for_order (w : Wallet) (order : Order) :
    Option (Balance × Fee × Balance) :=
  match indexMapGet w.balances (order_spend_mint order) with
  | none => none
  | some balance =>
      match w.fees.find? (fun fee => !(Fee.isDefault fee)) with
      | none => none
      | some fee =>
          match indexMapGet w.balances fee.gas_addr with
          | none => none
          | some fee_balance =>
              if fee_balance.amount < fee.gas_token_amount then none
              else some (balance, fee, fee_balance)

/-- Modelled from the spec: the maximum number of balances in a wallet
(`constants::MAX_BALANCES`, outside the source extract; §3 fixes the bound
abstractly and the concrete value is irrelevant to the claims below). -/
def MAX_BALANCES : Nat := 5

/-- Modelled from the spec: the maximum number of orders in a wallet
(`constants::MAX_ORDERS`, outside the source extract). -/
def MAX_ORDERS : Nat := 5

/-- Modelled from the spec: the maximum number of fees in a wallet
(`constants::MAX_FEES`, outside the source extract). -/
def MAX_FEES : Nat := 2

/-- The circuit wallet: balances, orders and fees padded with defaults to
their fixed capacities, the public keys, and the blinder
(`SizedCircuitWallet`). -/
structure SizedCircuitWallet where
  /-- The balances, padded to `MAX_BALANCES` -/
  balances : List Balance
  /-- The orders, padded to `MAX_ORDERS` -/
  orders : List Order
  /-- The fees, padded to `MAX_FEES` -/
  fees : List Fee
  /-- The public keys of the wallet -/
  keys : PublicKeyChain
  /-- The wallet blinder -/
  blinder : Nat
  deriving Repr, DecidableEq

/-- `From<Wallet> for SizedCircuitWallet` (`wallet.rs`): drop the map keys,
pad each vector with default elements up to its capacity. -/
def toCircuitWallet (w : Wallet) : SizedCircuitWallet :=
  { balances :=
      ((w.balances.map Prod.snd) ++ List.replicate MAX_BALANCES defaultBalance).take
        MAX_BALANCES
    orders :=
      ((w.orders.map Prod.snd) ++ List.replicate MAX_ORDERS defaultOrder).take MAX_ORDERS
    fees := (w.fees ++ List.replicate MAX_FEES defaultFee).take MAX_FEES
    keys := w.key_chain.public_keys
    blinder := w.blinder }

/-- `reblind_wallet` (`wallet.rs`): derive the next blinder and private
shares from the last two elements of the serialized private-share vector via
hash chains, then recompute the share split.  `hashChain` stands for
`crypto::hash::evaluate_hash_chain` and `createShares` for
`native_helpers::create_wallet_shares_from_private`; both live outside the
source extract and are passed in as (pure) functions, which is faithful to
the spec's description of them as hash chains and deterministic share
recomputation. -/
def reblind_wallet (hashChain : Nat → Nat → List Nat)
    (createShares : SizedCircuitWallet → List Nat → Nat → List Nat × List Nat)
    (w : Wallet) : Wallet :=
  let private_shares_serialized := w.private_shares
  let n_shares := private_shares_serialized.length
  let blinder_and_private_share :=
    hashChain (private_shares_serialized.getD (n_shares - 1) 0) 2
  let new_blinder := blinder_and_private_share.getD 0 0
  let new_blinder_private_share := blinder_and_private_share.getD 1 0
  let new_private_shares :=
    hashChain (private_shares_serialized.getD (n_shares - 2) 0) (n_shares - 1) ++
      [new_blinder_private_share]
  let shares := createShares (toCircuitWallet w) new_private_shares new_blinder
  { w with
    private_shares := shares.1
    blinded_public_shares := shares.2
    blinder := new_blinder }

/-- A concrete wallet used to instantiate theorems: one sell order funded by
a base-mint balance, one fee funded by a gas balance. -/
def sampleWallet : Wallet :=
  { wallet_id := 1
    orders := [(21, { quote_mint := 100, base_mint := 200, side := .Sell
                      amount := 30, price := 9 })]
    balances := [(200, { mint := 200, amount := 500 }),
                 (300, { mint := 300, amount := 50 })]
    fees := [defaultFee,
             { settle_key := 9, gas_addr := 300, gas_token_amount := 40
               percentage_fee := 1 }]
    key_chain :=
      { public_keys := { pk_root := { key_words := [11, 12] }, pk_match := 13 }
        secret_keys := { sk_root := none, sk_match := 14 } }
    blinder := 77
    metadata := [4]
    private_shares := [1, 2, 3, 4]
    blinded_public_shares := [5, 6, 7, 8]
    merkle_proof := none
    proof_staleness := 0 }

/-- A wallet with the same plaintext content and private shares as
`sampleWallet` but different identifier, metadata, public shares, Merkle
proof and staleness. -/
def sampleWalletVariant : Wallet :=
  { sampleWallet with
    wallet_id := 2
    metadata := []
    blinded_public_shares := [9, 9, 9, 9]
    merkle_proof := some [1, 2]
    proof_staleness := 3 }

/-- A concrete stand-in for `evaluate_hash_chain`, used to instantiate
theorems. -/
def sampleHashChain (seed len : Nat) : List Nat :=
  (List.range len).map (fun i => seed + i + 1)

/-- A concrete stand-in for `create_wallet_shares_from_private`, used to
instantiate theorems. -/
def sampleCreateShares (_cw : SizedCircuitWallet) (priv : List Nat) (bl : Nat) :
    List Nat × List Nat :=
  (priv, priv.map (fun x => x + bl))

end WalletTypes

/-! ## Heartbeat peer expiry (`core/src/gossip/heartbeat.rs`) -/

namespace Heartbeat

/-- A peer identifier (`WrappedPeerId`). -/
abbrev PeerId := Nat

/-- The interval at which to send heartbeats (`HEARTBEAT_INTERVAL_MS`). -/
def HEARTBEAT_INTERVAL_MS : Nat := 3000

/-- Time without a successful heartbeat before a peer is assumed failed
(`HEARTBEAT_FAILURE_MS`). -/
def HEARTBEAT_FAILURE_MS : Nat := 7000

/-- The minimum time between a peer's expiry and when it can be added back
(`EXPIRY_INVISIBILITY_WINDOW_MS`). -/
def EXPIRY_INVISIBILITY_WINDOW_MS : Nat := 10000

/-- `u64` wrapping subtraction, as performed by `now - *expired_at` in
release builds. -/
def u64Sub (a b : Nat) : Nat := (a + 2 ^ 64 - b) % 2 ^ 64

/-- Peer information (`PeerInfo`): the dialable address (opaque) and the
time of the last successful heartbeat (an atomic in the source, modelled as
a plain field rewritten on `successful_heartbeat`). -/
structure PeerInfo where
  /-- The peer's multiaddr, opaque -/
  addr : Nat
  /-- The unix timestamp in seconds of the last successful heartbeat -/
  last_heartbeat : Nat
  deriving Repr, DecidableEq

/-- An outbound message to the network manager relevant to peer indexing
(`GossipOutbound::NewAddr`). -/
structure NewAddrMessage where
  /-- The newly indexed peer -/
  peer_id : PeerId
  /-- The peer's address -/
  address : Nat
  deriving Repr, DecidableEq

/-- The state touched by `add_new_peer` and `maybe_expire_peer`: the known
peer index, the expiry invisibility cache (`peer_id → expired_at`; LRU
capacity eviction is not modelled, the claims condition on an entry being
present), and the messages sent on the network channel. -/
structure PeerIndexState where
  /-- The known-peer index (`known_peer_info`) -/
  known_peer_info : PeerId → Option PeerInfo
  /-- The peer expiry invisibility cache (`peer_expiry_cache`) -/
  peer_expiry_cache : PeerId → Option Nat
  /-- Messages sent on the network channel, oldest first -/
  outbound : List NewAddrMessage

/-- `add_new_peer` (`heartbeat.rs`): index a new peer unless it was expired
within the invisibility window.  `now` is the value of
`get_current_time_seconds()` at entry; the `successful_heartbeat` recorded on
the inserted peer info stamps the same clock reading.  Returns the source's
boolean (whether the peer is now indexed) together with the updated state. -/
def add_new_peer (now : Nat) (new_peer_id : PeerId) (new_peer_info : PeerInfo)
    (st : PeerIndexState) : Bool × PeerIndexState :=
  let afterCache :=
    match st.peer_expiry_cache new_peer_id with
    | some expired_at =>
        if u64Sub now expired_at ≤ EXPIRY_INVISIBILITY_WINDOW_MS / 1000 then
          none
        else
          -- invisibility window elapsed: pop the entry and proceed
          some { st with
            peer_expiry_cache := Function.update st.peer_expiry_cache new_peer_id none }
    | none => some st
  match afterCache with
  | none => (false, st)
  | some st =>
      match st.known_peer_info new_peer_id with
      | none =>
          -- vacant entry: record a dummy heartbeat, insert, register the address
          let stamped := { new_peer_info with last_heartbeat := now }
          (true,
            { st with
              known_peer_info :=
                Function.update st.known_peer_info new_peer_id (some stamped)
              outbound := st.outbound ++
                [{ peer_id := new_peer_id, address := new_peer_info.addr }] })
      | some _ => (true, st)

/-- `maybe_expire_peer` (`heartbeat.rs`): expire a peer whose last successful
heartbeat is at least `HEARTBEAT_FAILURE` old, removing it from the index and
recording it in the invisibility cache.  The source unwraps the peer's info;
an absent peer is modelled as a no-op. -/
def maybe_expire_peer (now : Nat) (peer_id : PeerId) (st : PeerIndexState) :
    PeerIndexState :=
  match st.known_peer_info peer_id with
  | none => st
  | some peer_info =>
      if u64Sub now peer_info.last_heartbeat < HEARTBEAT_FAILURE_MS / 1000 then st
      else
        { st with
          known_peer_info := Function.update st.known_peer_info peer_id none
          peer_expiry_cache := Function.update st.peer_expiry_cache peer_id (some now) }

/-- A concrete peer-index state with peer 8 expired at time 100 and no known
peers, used to instantiate theorems. -/
def samplePeerState : PeerIndexState :=
  { known_peer_info := fun _ => none
    peer_expiry_cache := fun p => if p = 8 then some 100 else none
    outbound := [] }

end Heartbeat

/-! ## Gossip-server validity-proof verification
(`workers/gossip-server/src/orderbook.rs`) -/

namespace GossipServer

open OrderBook

/-- Error message emitted when an already-used nullifier is received. -/
def ERR_NULLIFIER_USED : String := "invalid nullifier, already used"

/-- Error message emitted when two validity proofs are improperly commitment
linked. -/
def ERR_INVALID_PROOF_LINK : String :=
  "invalid proof link between VALID REBLIND and VALID COMMITMENTS"

/-- The gossip-server error variants reachable from the embedded fragment. -/
inductive GossipError where
  | ValidCommitmentVerification (msg : String)
  | ValidReblindVerification (msg : String)
  | NullifierUsed (msg : String)
  | StarknetRequest (msg : String)
  deriving Repr, DecidableEq

/-- The chain client and circuit verifier the gossip server consults; these
live outside the embedded source (`starknet-client`, `circuits`) and are
passed in as explicit functions.  Chain queries may fail (RPC errors). -/
structure ChainAndVerifier where
  /-- `verify_reblind_commitments_link`: whether the reblind and commitments
  proofs share the expected commitment openings -/
  link_ok : Nat → Nat → Bool
  /-- `StarknetClient::check_nullifier_unused` -/
  check_nullifier_unused : Nullifier → Except String Bool
  /-- `StarknetClient::check_merkle_root_valid` -/
  check_merkle_root_valid : Nat → Except String Bool
  /-- `verify_singleprover_proof::<SizedValidReblind>` -/
  verify_valid_reblind : ValidReblindStatement → Nat → Nat → Except String Unit
  /-- `verify_singleprover_proof::<SizedValidCommitments>` -/
  verify_valid_commitments : Nat → Nat → Nat → Except String Unit

/-- `assert_nullifier_unused` (`orderbook.rs`): error with `NullifierUsed` if
the chain reports the nullifier spent, `StarknetRequest` if the query
fails. -/
def assert_nullifier_unused (env : ChainAndVerifier) (nullifier : Nullifier) :
    Except GossipError Unit :=
  match env.check_nullifier_unused nullifier with
  | .error err => .error (.StarknetRequest err)
  | .ok res => if !res then .error (.NullifierUsed ERR_NULLIFIER_USED) else .ok ()

/-- `verify_validity_proofs` (`orderbook.rs`): check the commitment link, the
nullifier, the historical Merkle root, and both proofs.  An invalid Merkle
root is only logged — the error return is commented out in the source behind
a TODO ("Once the contract implements foreign field Merkle, error on this
test") — so verification proceeds regardless of the root's validity. -/
def verify_validity_proofs (env : ChainAndVerifier)
    (proof_bundle : OrderValidityProofBundle) : Except GossipError Unit :=
  let reblind_proof := proof_bundle.reblind_proof
  let commitment_proof := proof_bundle.commitment_proof
  if !(env.link_ok reblind_proof.commitment commitment_proof.commitment) then
    .error (.ValidCommitmentVerification ERR_INVALID_PROOF_LINK)
  else
    match assert_nullifier_unused env reblind_proof.statement.original_shares_nullifier with
    | .error e => .error e
    | .ok _ =>
        match env.check_merkle_root_valid reblind_proof.statement.merkle_root with
        | .error err => .error (.StarknetRequest err)
        | .ok _valid =>
            match env.verify_valid_reblind reblind_proof.statement
                reblind_proof.commitment reblind_proof.proof with
            | .error e => .error (.ValidReblindVerification e)
            | .ok _ =>
                match env.verify_valid_commitments commitment_proof.statement
                    commitment_proof.commitment commitment_proof.proof with
                | .error e => .error (.ValidCommitmentVerification e)
                | .ok _ => .ok ()

/-- Modelled from the spec: `NetworkOrder::new` constructs an order in the
`Received` state (§3: "inserted in `Received`"); the constructor itself is
outside the source extract.  The timestamp is the receive time, taken as 0
here. -/
def networkOrderNew (order_id : OrderIdentifier) (nullifier : Nullifier)
    (cluster : ClusterId) (is_local : Bool) : NetworkOrder :=
  { id := order_id
    public_share_nullifier := nullifier
    cluster := cluster
    state := .Received
    validity_proofs := none
    validity_proof_witnesses := none
    timestamp := 0
    is_local := is_local }

/-- `handle_new_validity_proof` (`orderbook.rs`): verify the bundle when the
sender is not a local-cluster peer, add the order in the `Received` state if
it is not yet in the book, then attach the validity proofs (which transitions
the order to `Verified` through the state applicator).  The
witness-request pubsub message for local orders is not modelled. -/
def handle_new_validity_proof (env : ChainAndVerifier)
    (local_cluster_id : ClusterId) (order_id : OrderIdentifier)
    (cluster : ClusterId) (proof_bundle : OrderValidityProofBundle)
    (st : ApplicatorState) : Except GossipError ApplicatorState :=
  let is_local := cluster = local_cluster_id
  (if !is_local then verify_validity_proofs env proof_bundle
   else Except.ok ()) >>= fun _ =>
  let st :=
    if !(st.orders order_id).isSome then
      new_order
        (networkOrderNew order_id
          proof_bundle.reblind_proof.statement.original_shares_nullifier
          cluster is_local)
        st
    else st
  let st :=
    match add_order_validity_proof order_id proof_bundle st with
    | .ok st' => st'
    | .error _ => st
  .ok st

/-- An environment in which the commitment link and both proofs check out and
the nullifier is unspent, but every Merkle root is reported invalid. -/
def invalidRootEnv : ChainAndVerifier :=
  { link_ok := fun _ _ => true
    check_nullifier_unused := fun _ => .ok true
    check_merkle_root_valid := fun _ => .ok false
    verify_valid_reblind := fun _ _ _ => .ok ()
    verify_valid_commitments := fun _ _ _ => .ok () }

/-- An order book with no orders. -/
def emptyBook : ApplicatorState :=
  { orders := fun _ => none
    nullifier_sets := fun _ => none
    priorities := fun _ => none
    cluster_priorities := fun _ => none
    bus := [] }

end GossipServer

end Renegade

namespace Renegade

/-! ### Keychain helper lemmas -/

namespace Keychain

/-- Each chunk is below the Ristretto group order, so the reduction performed
by `Scalar::from_bytes_mod_order` is the identity on it. -/
lemma chunk_lt_groupOrder (val : Nat) : val % wordModulus < ristrettoGroupOrder := by
  have h1 : val % wordModulus < wordModulus :=
    Nat.mod_lt _ (by simp [wordModulus])
  have h2 : wordModulus < ristrettoGroupOrder := by
    simp only [wordModulus, ristrettoGroupOrder, SCALAR_MAX_BYTES]
    norm_num
  omega

/-- Splitting then combining recovers any value fitting in the given number of
words. -/
lemma combine_split (keyWords : Nat) :
    ∀ val : Nat, val < wordModulus ^ keyWords →
      combine_words_into_biguint (split_biguint_into_words keyWords val) = val := by
  induction keyWords with
  | zero =>
      intro val hval
      simp only [pow_zero, Nat.lt_one_iff] at hval
      simp [hval, split_biguint_into_words, combine_words_into_biguint]
  | succ k ih =>
      intro val hval
      have hdiv : val / wordModulus < wordModulus ^ k := by
        rw [Nat.div_lt_iff_lt_mul (by simp [wordModulus] : 0 < wordModulus)]
        calc val < wordModulus ^ (k + 1) := hval
          _ = wordModulus ^ k * wordModulus := by ring
      simp only [split_biguint_into_words, combine_words_into_biguint]
      rw [Nat.mod_eq_of_lt (chunk_lt_groupOrder val), ih _ hdiv,
        Nat.mod_mod_of_dvd val (dvd_refl wordModulus),
        Nat.mod_add_div val wordModulus]

end Keychain

/-! ### C7 theorems -/

open Keychain in
/-- **C7.** For every non-negative integer `n` strictly below
`2^(SCALAR_MAX_BYTES·KEY_WORDS·8)`, combining the scalar words produced by
splitting `n` recovers `n` exactly: `combine_words_into_biguint` applied to the
`NonNativeKey` whose `key_words` are `split_biguint_into_words n` equals `n`. -/
theorem split_combine_roundtrip (keyWords n : Nat)
    (h : n < 2 ^ (SCALAR_MAX_BYTES * keyWords * 8)) :
    combine_words_into_biguint (NonNativeKey.ofBiguint keyWords n).key_words = n := by
  have hpow : 2 ^ (SCALAR_MAX_BYTES * keyWords * 8) = wordModulus ^ keyWords := by
    simp only [wordModulus, ← pow_mul]
    ring_nf
  exact combine_split keyWords n (by rw [hpow] at h; exact h)

set_option exponentiation.threshold 600 in
open Keychain in
/-- Witness for C7: round trip at `keyWords = ROOT_KEY_WORDS = 2` on a concrete
key value. -/
theorem split_combine_roundtrip_witness :
    (2 ^ 300 + 987654321 < 2 ^ (SCALAR_MAX_BYTES * ROOT_KEY_WORDS * 8)) ∧
      combine_words_into_biguint
        (NonNativeKey.ofBiguint ROOT_KEY_WORDS (2 ^ 300 + 987654321)).key_words =
        2 ^ 300 + 987654321 :=
  ⟨by decide, split_combine_roundtrip ROOT_KEY_WORDS _ (by decide)⟩

/-! ### C6 theorems -/

open MatchTypes in
/-- **C6.** The two `MatchResult` scalar-vector serializers disagree on field
order: serialization emits `(quote_mint, base_mint, quote_amount, base_amount,
direction)` while deserialization reads `(quote_mint, quote_amount, base_mint,
base_amount, direction)`, so deserializing a serialized match result swaps
`base_mint` and `quote_amount`, and the composition is not the identity. -/
theorem match_serializers_disagree :
    (∀ m : AuthenticatedMatchResult Nat,
        authMatchResultToScalars m =
          [m.quote_mint, m.base_mint, m.quote_amount, m.base_amount, m.direction]) ∧
    (∀ v0 v1 v2 v3 v4 : Nat,
        authMatchResultFromScalars [v0, v1, v2, v3, v4] =
          .ok { quote_mint := v0, quote_amount := v1, base_mint := v2,
                base_amount := v3, direction := v4 }) ∧
    (∀ m : AuthenticatedMatchResult Nat,
        authMatchResultFromScalars (authMatchResultToScalars m) =
          .ok { m with base_mint := m.quote_amount, quote_amount := m.base_mint }) ∧
    (∃ m : AuthenticatedMatchResult Nat,
        authMatchResultFromScalars (authMatchResultToScalars m) ≠ .ok m) := by
  refine ⟨fun m => rfl, fun v0 v1 v2 v3 v4 => rfl, fun m => rfl, ?_⟩
  refine ⟨{ quote_mint := 0, base_mint := 1, quote_amount := 2,
            base_amount := 3, direction := 4 }, ?_⟩
  simp [authMatchResultToScalars, authMatchResultFromScalars]

/-! ### Order-book helper lemmas -/

namespace OrderBook

/-- Cancelling keeps the order's id. -/
lemma cancelRecord_id (o : NetworkOrder) : (cancelRecord o).id = o.id := rfl

/-- Equation lemma for `cancel_order_with_tx`. -/
lemma cancel_order_with_tx_eq (order_id : OrderIdentifier) (st : ApplicatorState) :
    cancel_order_with_tx order_id st =
      match st.orders order_id with
      | some o => .ok { st with
          orders := Function.update st.orders (cancelRecord o).id (some (cancelRecord o))
          bus := st.bus ++ [.OrderStateChange (cancelRecord o)] }
      | none => .error (.MissingEntry "Order missing from message") := by
  cases h : st.orders order_id <;>
    simp [cancel_order_with_tx, read_order_info_unchecked, read_order_info, h,
      write_order_info, cancelRecord, Bind.bind, Except.bind, Pure.pure, Except.pure]

/-- Reading a nullifier set through a nullifier-set write. -/
lemma read_nullifier_set_write (n m : Nullifier) (s : List OrderIdentifier)
    (st : ApplicatorState) :
    read_nullifier_set n (write_nullifier_set m s st) =
      if n = m then s else read_nullifier_set n st := by
  simp only [read_nullifier_set, write_nullifier_set, Function.update_apply]
  split <;> rfl

/-- Appending preserves duplicate-freedom of every nullifier set. -/
lemma append_to_nullifier_set_nodup (st : ApplicatorState)
    (h : ∀ n, (read_nullifier_set n st).Nodup) (m : Nullifier)
    (oid : OrderIdentifier) :
    ∀ n, (read_nullifier_set n (append_to_nullifier_set m oid st)).Nodup := by
  intro n
  by_cases hmem : oid ∈ read_nullifier_set m st
  · simpa [append_to_nullifier_set, hmem] using h n
  · simp only [append_to_nullifier_set, if_neg hmem]
    rw [read_nullifier_set_write]
    split
    · exact (h m).append (List.nodup_singleton _) (List.disjoint_singleton.mpr hmem)
    · exact h n

/-- Re-indexing an order's nullifier preserves duplicate-freedom of every
nullifier set. -/
lemma update_order_nullifier_nodup (st : ApplicatorState)
    (h : ∀ n, (read_nullifier_set n st).Nodup) (oid : OrderIdentifier)
    (oldN newN : Nullifier) :
    ∀ n, (read_nullifier_set n (update_order_nullifier oid oldN newN st)).Nodup := by
  unfold update_order_nullifier
  apply append_to_nullifier_set_nodup
  intro n
  rw [read_nullifier_set_write]
  split
  · exact (h oldN).filter _
  · exact h n

/-- Writing an order record does not change any nullifier set. -/
lemma read_nullifier_set_write_order (n : Nullifier) (o : NetworkOrder)
    (st : ApplicatorState) :
    read_nullifier_set n (write_order_info o st) = read_nullifier_set n st := rfl

/-- A successful cancel leaves the nullifier sets untouched. -/
lemma cancel_order_with_tx_sets (order_id : OrderIdentifier)
    (st st' : ApplicatorState) (h : cancel_order_with_tx order_id st = .ok st') :
    st'.nullifier_sets = st.nullifier_sets := by
  rw [cancel_order_with_tx_eq] at h
  cases ho : st.orders order_id <;> rw [ho] at h
  · exact absurd h (by simp)
  · cases h
    rfl

/-- A successful cancel fold leaves the nullifier sets untouched. -/
lemma foldlM_cancel_sets (l : List OrderIdentifier) :
    ∀ st st' : ApplicatorState,
      l.foldlM (fun st order_id => cancel_order_with_tx order_id st) st = .ok st' →
      st'.nullifier_sets = st.nullifier_sets := by
  induction l with
  | nil =>
      intro st st' h
      cases h
      rfl
  | cons oid rest ih =>
      intro st st' h
      rw [List.foldlM_cons] at h
      cases hc : cancel_order_with_tx oid st <;> rw [hc] at h
      · exact absurd h (by simp [Bind.bind, Except.bind])
      · next st1 =>
          rw [show ((Except.ok st1 : Except StateApplicatorError ApplicatorState) >>=
            fun st => rest.foldlM (fun st order_id => cancel_order_with_tx order_id st) st) =
            rest.foldlM (fun st order_id => cancel_order_with_tx order_id st) st1 from rfl] at h
          rw [ih st1 st' h, cancel_order_with_tx_sets oid st st1 hc]

/-- Full specification of a successful cancel fold: every listed order is
rewritten to its cancelled form, everything else is framed, and one
`OrderStateChange` message is published per listed order, in order. -/
lemma foldlM_cancel_spec (l : List OrderIdentifier) :
    ∀ st : ApplicatorState,
      l.Nodup →
      (∀ oid ∈ l, ∃ o, st.orders oid = some o ∧ o.id = oid) →
      ∃ st', l.foldlM (fun st order_id => cancel_order_with_tx order_id st) st = .ok st' ∧
        (∀ oid ∈ l, st'.orders oid = some (cancelRecord ((st.orders oid).getD default))) ∧
        (∀ oid, oid ∉ l → st'.orders oid = st.orders oid) ∧
        st'.nullifier_sets = st.nullifier_sets ∧
        st'.priorities = st.priorities ∧
        st'.cluster_priorities = st.cluster_priorities ∧
        st'.bus = st.bus ++ l.map (fun oid =>
          SystemBusMessage.OrderStateChange (cancelRecord ((st.orders oid).getD default))) := by
  induction l with
  | nil =>
      intro st _ _
      exact ⟨st, rfl, by simp, fun _ _ => rfl, rfl, rfl, rfl, by simp⟩
  | cons oid rest ih =>
      intro st hnodup hcons
      obtain ⟨hhead, hrest⟩ := List.nodup_cons.mp hnodup
      obtain ⟨o, ho, hoid⟩ := hcons oid (List.mem_cons_self _ _)
      set st1 : ApplicatorState := { st with
        orders := Function.update st.orders oid (some (cancelRecord o))
        bus := st.bus ++ [.OrderStateChange (cancelRecord o)] } with hst1
      have hc : cancel_order_with_tx oid st = .ok st1 := by
        rw [cancel_order_with_tx_eq, ho, hst1]
        simp [cancelRecord_id, hoid]
      have hcons1 : ∀ oid' ∈ rest, ∃ o', st1.orders oid' = some o' ∧ o'.id = oid' := by
        intro oid' h'
        have hne : oid' ≠ oid := fun heq => hhead (heq ▸ h')
        obtain ⟨o', ho', hid'⟩ := hcons oid' (List.mem_cons_of_mem _ h')
        exact ⟨o', by simpa [hst1, Function.update_noteq hne] using ho', hid'⟩
      obtain ⟨st', hfold, hin, hout, hsets, hprio, hcprio, hbus⟩ := ih st1 hrest hcons1
      have horders1 : ∀ oid', oid' ≠ oid → st1.orders oid' = st.orders oid' := by
        intro oid' hne
        simp [hst1, Function.update_noteq hne]
      refine ⟨st', ?_, ?_, ?_, ?_, ?_, ?_, ?_⟩
      · rw [List.foldlM_cons, hc]
        exact hfold
      · intro oid' h'
        rcases List.mem_cons.mp h' with heq | hmem
        · subst heq
          rw [hout oid' hhead]
          simp [hst1, ho]
        · rw [hin oid' hmem, horders1 oid' (fun heq => hhead (heq ▸ hmem))]
      · intro oid' h'
        have h1 : oid' ≠ oid := fun heq => h' (heq ▸ List.mem_cons_self _ _)
        have h2 : oid' ∉ rest := fun hm => h' (List.mem_cons_of_mem _ hm)
        rw [hout oid' h2, horders1 oid' h1]
      · rw [hsets]
      · rw [hprio]
      · rw [hcprio]
      · rw [hbus]
        have hmap : rest.map (fun oid' =>
              SystemBusMessage.OrderStateChange (cancelRecord ((st1.orders oid').getD default))) =
            rest.map (fun oid' =>
              SystemBusMessage.OrderStateChange (cancelRecord ((st.orders oid').getD default))) :=
          List.map_congr_left fun oid' hmem => by
            rw [horders1 oid' (fun heq => hhead (heq ▸ hmem))]
        rw [hmap, List.map_cons]
        show (st.bus ++ [SystemBusMessage.OrderStateChange (cancelRecord o)]) ++ _ = _
        rw [List.append_assoc, List.singleton_append, ho]
        rfl

/-- Destructor for a successful `Except` bind. -/
lemma exceptBind_ok {ε α β : Type} (e : Except ε α) (f : α → Except ε β) (b : β)
    (h : e >>= f = .ok b) : ∃ a, e = .ok a ∧ f a = .ok b := by
  cases e with
  | error err => exact absurd h (by simp [Bind.bind, Except.bind])
  | ok a => exact ⟨a, rfl, by simpa [Bind.bind, Except.bind] using h⟩

/-- The nullifier sets after a successful `add_order_validity_proof` are
either untouched or equal to those after one re-indexing
`update_order_nullifier`. -/
lemma add_order_validity_proof_sets (oid : OrderIdentifier)
    (proof : OrderValidityProofBundle) (st st' : ApplicatorState)
    (hres : add_order_validity_proof oid proof st = .ok st') :
    st'.nullifier_sets = st.nullifier_sets ∨
      ∃ oldN, st'.nullifier_sets =
        (update_order_nullifier oid oldN
          proof.reblind_proof.statement.original_shares_nullifier st).nullifier_sets := by
  unfold add_order_validity_proof at hres
  obtain ⟨st1, hattach, hrest⟩ := exceptBind_ok _ _ _ hres
  obtain ⟨v1, hread2, hpub⟩ := exceptBind_ok _ _ _ hrest
  dsimp only [Pure.pure, Except.pure] at hpub
  cases hpub
  unfold attach_validity_proof_with_tx at hattach
  obtain ⟨info, hread1, hwrite⟩ := exceptBind_ok _ _ _ hattach
  dsimp only [Pure.pure, Except.pure] at hwrite
  cases hwrite
  by_cases hne :
    info.public_share_nullifier ≠ proof.reblind_proof.statement.original_shares_nullifier
  · rw [if_pos hne]
    exact Or.inr ⟨info.public_share_nullifier, rfl⟩
  · rw [if_neg hne]
    exact Or.inl rfl

/-- A successful `add_order_validity_proof` preserves duplicate-freedom of the
nullifier sets. -/
lemma add_order_validity_proof_nodup (oid : OrderIdentifier)
    (proof : OrderValidityProofBundle) (st st' : ApplicatorState)
    (hres : add_order_validity_proof oid proof st = .ok st')
    (h : ∀ n, (read_nullifier_set n st).Nodup) :
    ∀ n, (read_nullifier_set n st').Nodup := by
  intro n
  rcases add_order_validity_proof_sets oid proof st st' hres with hs | ⟨oldN, hs⟩
  · unfold read_nullifier_set
    rw [hs]
    exact h n
  · unfold read_nullifier_set
    rw [hs]
    exact update_order_nullifier_nodup st h oid oldN _ n

/-- `new_order` preserves duplicate-freedom of the nullifier sets. -/
lemma new_order_nodup (order : NetworkOrder) (st : ApplicatorState)
    (h : ∀ n, (read_nullifier_set n st).Nodup) :
    ∀ n, (read_nullifier_set n (new_order order st)).Nodup := by
  intro n
  unfold new_order add_order_with_tx
  cases hro : read_order_info order.id (write_order_priority_with_tx order st) with
  | none =>
      simp only [hro]
      exact append_to_nullifier_set_nodup (write_order_priority_with_tx order st) h
        order.public_share_nullifier order.id n
  | some info =>
      simp only [hro]
      exact update_order_nullifier_nodup (write_order_priority_with_tx order st) h
        order.id info.public_share_nullifier order.public_share_nullifier n

/-- A successful `nullify_orders` leaves the nullifier sets untouched, hence
preserves their duplicate-freedom. -/
lemma nullify_orders_nodup (n0 : Nullifier) (st st' : ApplicatorState)
    (hres : nullify_orders n0 st = .ok st')
    (h : ∀ n, (read_nullifier_set n st).Nodup) :
    ∀ n, (read_nullifier_set n st').Nodup := by
  intro n
  have hs := foldlM_cancel_sets _ st st' hres
  unfold read_nullifier_set
  rw [hs]
  exact h n

/-- Every applicator operation preserves duplicate-freedom of the nullifier
sets. -/
lemma applyOrderBookOp_nodup (op : OrderBookOp) (st : ApplicatorState)
    (h : ∀ n, (read_nullifier_set n st).Nodup) :
    ∀ n, (read_nullifier_set n (applyOrderBookOp op st)).Nodup := by
  cases op with
  | newOrder order => exact new_order_nodup order st h
  | addValidityProof oid proof =>
      simp only [applyOrderBookOp]
      cases hres : add_order_validity_proof oid proof st with
      | error e => exact h
      | ok st' => exact add_order_validity_proof_nodup oid proof st st' hres h
  | nullifyOrders n0 =>
      simp only [applyOrderBookOp]
      cases hres : nullify_orders n0 st with
      | error e => exact h
      | ok st' => exact nullify_orders_nodup n0 st st' hres h

/-! ### C10, C3, C9 theorems -/

/-- **C10.** When an order is cancelled, its stored record has `state` set to
`Cancelled` and both `validity_proofs` and `validity_proof_witnesses` cleared
to `None`, while every other field of the stored `NetworkOrder` (`id`,
`public_share_nullifier`, `cluster`, `timestamp`, `local`) is left
unchanged. -/
theorem cancel_order_frame (st : ApplicatorState) (order_id : OrderIdentifier)
    (o : NetworkOrder) (hread : st.orders order_id = some o)
    (hid : o.id = order_id) :
    ∃ st', cancel_order_with_tx order_id st = .ok st' ∧
      st'.orders order_id = some
        { id := o.id
          public_share_nullifier := o.public_share_nullifier
          cluster := o.cluster
          state := NetworkOrderState.Cancelled
          validity_proofs := none
          validity_proof_witnesses := none
          timestamp := o.timestamp
          is_local := o.is_local } := by
  refine ⟨{ st with
      orders := Function.update st.orders order_id (some (cancelRecord o))
      bus := st.bus ++ [.OrderStateChange (cancelRecord o)] }, ?_, ?_⟩
  · rw [cancel_order_with_tx_eq, hread]
    simp [cancelRecord_id, hid]
  · simp only [Function.update_same]
    rfl

/-- Witness for C10: cancelling the sample order with an attached proof and
witness bundle yields the cancelled record with all other fields intact. -/
theorem cancel_order_frame_witness :
    sampleBook.orders 2 = some sampleOrder2 ∧ sampleOrder2.id = 2 ∧
    ∃ st', cancel_order_with_tx 2 sampleBook = .ok st' ∧
      st'.orders 2 = some
        { id := sampleOrder2.id
          public_share_nullifier := sampleOrder2.public_share_nullifier
          cluster := sampleOrder2.cluster
          state := NetworkOrderState.Cancelled
          validity_proofs := none
          validity_proof_witnesses := none
          timestamp := sampleOrder2.timestamp
          is_local := sampleOrder2.is_local } :=
  ⟨rfl, rfl, cancel_order_frame sampleBook 2 sampleOrder2 rfl rfl⟩

/-- **C3.** After `nullify_orders n` succeeds, every order id in the nullifier
set stored for `n` has its stored order state equal to `Cancelled`, one
`OrderStateChange` bus message is published per such order, and orders indexed
only under other nullifiers are left unchanged.  The hypotheses express the
book's storage invariants: the set for `n` is duplicate-free and every listed
order is stored under its own id. -/
theorem nullify_orders_cancels_nullifier_set (n : Nullifier)
    (st : ApplicatorState)
    (hnodup : (read_nullifier_set n st).Nodup)
    (hcons : ∀ oid ∈ read_nullifier_set n st,
      ∃ o, st.orders oid = some o ∧ o.id = oid) :
    ∃ st', nullify_orders n st = .ok st' ∧
      (∀ oid ∈ read_nullifier_set n st,
        ∃ o, st.orders oid = some o ∧ st'.orders oid = some (cancelRecord o) ∧
          (cancelRecord o).state = NetworkOrderState.Cancelled) ∧
      st'.bus = st.bus ++ (read_nullifier_set n st).map (fun oid =>
        SystemBusMessage.OrderStateChange (cancelRecord ((st.orders oid).getD default))) ∧
      (∀ oid, oid ∉ read_nullifier_set n st → st'.orders oid = st.orders oid) := by
  obtain ⟨st', hfold, hin, hout, _, _, _, hbus⟩ :=
    foldlM_cancel_spec (read_nullifier_set n st) st hnodup hcons
  refine ⟨st', hfold, ?_, hbus, hout⟩
  intro oid hmem
  obtain ⟨o, ho, _⟩ := hcons oid hmem
  refine ⟨o, ho, ?_, rfl⟩
  rw [hin oid hmem, ho]
  rfl

/-- Witness for C3: nullifying nullifier 5 in the sample book cancels orders 1
and 2, publishes two messages, and leaves order 3 (indexed under 9) alone. -/
theorem nullify_orders_cancels_nullifier_set_witness :
    (read_nullifier_set 5 sampleBook).Nodup ∧
    ∃ st', nullify_orders 5 sampleBook = .ok st' ∧
      (∀ oid ∈ read_nullifier_set 5 sampleBook,
        ∃ o, sampleBook.orders oid = some o ∧
          st'.orders oid = some (cancelRecord o) ∧
          (cancelRecord o).state = NetworkOrderState.Cancelled) ∧
      st'.bus = sampleBook.bus ++ (read_nullifier_set 5 sampleBook).map (fun oid =>
        SystemBusMessage.OrderStateChange
          (cancelRecord ((sampleBook.orders oid).getD default))) ∧
      (∀ oid, oid ∉ read_nullifier_set 5 sampleBook →
        st'.orders oid = sampleBook.orders oid) :=
  ⟨by decide,
    nullify_orders_cancels_nullifier_set 5 sampleBook (by decide)
      (by
        intro oid hmem
        simp only [read_nullifier_set, sampleBook] at hmem
        norm_num at hmem
        rcases hmem with rfl | rfl
        · exact ⟨sampleOrder1, rfl, rfl⟩
        · exact ⟨sampleOrder2, rfl, rfl⟩)⟩

/-- **C9.** After any sequence of order-book applicator operations
(`new_order`, `add_order_validity_proof`, `nullify_orders`) starting from a
book whose nullifier sets are duplicate-free, every nullifier set still
contains each order identifier at most once; and appending an order id
already present in a nullifier set leaves the state unchanged. -/
theorem nullifier_set_entries_unique :
    (∀ (st : ApplicatorState) (n : Nullifier) (oid : OrderIdentifier),
        oid ∈ read_nullifier_set n st → append_to_nullifier_set n oid st = st) ∧
    (∀ (ops : List OrderBookOp) (st : ApplicatorState),
        (∀ n, (read_nullifier_set n st).Nodup) →
        ∀ n, (read_nullifier_set n (applyOrderBookOps ops st)).Nodup) := by
  constructor
  · intro st n oid hmem
    simp [append_to_nullifier_set, hmem]
  · intro ops
    induction ops with
    | nil => intro st h; exact h
    | cons op rest ih =>
        intro st h
        exact ih (applyOrderBookOp op st) (applyOrderBookOp_nodup op st h)

/-- Witness for C9: re-appending the already-indexed order 3 to nullifier 9's
set is a no-op, and a concrete operation sequence keeps every set
duplicate-free. -/
theorem nullifier_set_entries_unique_witness :
    (3 ∈ read_nullifier_set 9 sampleBook) ∧
    append_to_nullifier_set 9 3 sampleBook = sampleBook ∧
    (read_nullifier_set 5
      (applyOrderBookOps
        [OrderBookOp.addValidityProof 1 sampleBundle, OrderBookOp.nullifyOrders 5]
        sampleBook)).Nodup :=
  ⟨by decide,
    nullifier_set_entries_unique.1 sampleBook 9 3 (by decide),
    nullifier_set_entries_unique.2
      [OrderBookOp.addValidityProof 1 sampleBundle, OrderBookOp.nullifyOrders 5]
      sampleBook
      (by
        intro n
        simp only [read_nullifier_set, sampleBook]
        split
        · decide
        · split
          · decide
          · decide)
      5⟩

end OrderBook

/-! ### C5, C2, C8 theorems -/

namespace WalletTypes

/-- **C5.** `get_balance_and_fee_for_order` returns
`Some (balance, fee, fee_balance)` exactly when the wallet holds a balance
for the mint the order spends (quote mint for a buy, base mint for a sell),
a (first) non-default fee, and a balance for that fee's gas address whose
amount is at least the fee's `gas_token_amount`; in every other case it
returns `None`. -/
theorem get_balance_and_fee_characterization (w : Wallet) (order : Order)
    (b : Balance) (f : Fee) (fb : Balance) :
    get_balance_and_fee_for_order w order = some (b, f, fb) ↔
      (indexMapGet w.balances (order_spend_mint order) = some b ∧
        w.fees.find? (fun fee => !(Fee.isDefault fee)) = some f ∧
        indexMapGet w.balances f.gas_addr = some fb ∧
        f.gas_token_amount ≤ fb.amount) := by
  unfold get_balance_and_fee_for_order
  cases h1 : indexMapGet w.balances (order_spend_mint order) with
  | none => simp
  | some balance =>
      dsimp only
      cases h2 : w.fees.find? (fun fee => !(Fee.isDefault fee)) with
      | none => simp
      | some fee =>
          dsimp only
          cases h3 : indexMapGet w.balances fee.gas_addr with
          | none =>
              constructor
              · intro h
                simp at h
              · rintro ⟨hb, hf, hfb, _⟩
                obtain rfl : fee = f := by simpa using hf
                rw [h3] at hfb
                simp at hfb
          | some fee_balance =>
              dsimp only
              constructor
              · intro h
                by_cases h4 : fee_balance.amount < fee.gas_token_amount
                · rw [if_pos h4] at h
                  simp at h
                · rw [if_neg h4] at h
                  obtain ⟨rfl, rfl, rfl⟩ :
                      balance = b ∧ fee = f ∧ fee_balance = fb := by
                    simpa using h
                  exact ⟨rfl, rfl, h3, Nat.le_of_not_lt h4⟩
              · rintro ⟨hb, hf, hfb, hle⟩
                obtain rfl : balance = b := by simpa using hb
                obtain rfl : fee = f := by simpa using hf
                obtain rfl : fee_balance = fb := by
                  rw [h3] at hfb
                  simpa using hfb
                rw [if_neg (Nat.not_lt.mpr hle)]

/-- Witness for C5: in the sample wallet, the sell order is matched to its
base-mint balance, the first non-default fee, and that fee's gas balance. -/
theorem get_balance_and_fee_characterization_witness :
    get_balance_and_fee_for_order sampleWallet
        { quote_mint := 100, base_mint := 200, side := .Sell, amount := 30, price := 9 } =
      some ({ mint := 200, amount := 500 },
        { settle_key := 9, gas_addr := 300, gas_token_amount := 40, percentage_fee := 1 },
        { mint := 300, amount := 50 }) :=
  (get_balance_and_fee_characterization sampleWallet
    { quote_mint := 100, base_mint := 200, side := .Sell, amount := 30, price := 9 }
    { mint := 200, amount := 500 }
    { settle_key := 9, gas_addr := 300, gas_token_amount := 40, percentage_fee := 1 }
    { mint := 300, amount := 50 }).mpr ⟨by decide, by decide, by decide, by decide⟩

/-- **C2, counterexample.** No finite staleness threshold makes
`needs_new_commitment_proof` return `true` at or above it: the function is
hard-coded to `false`, so for any candidate threshold the wallet whose
staleness equals the threshold refutes it. -/
theorem no_staleness_threshold :
    ¬ ∃ threshold : Nat, ∀ w : Wallet,
        (threshold ≤ w.proof_staleness → needs_new_commitment_proof w = true) ∧
        (w.proof_staleness < threshold → needs_new_commitment_proof w = false) := by
  rintro ⟨threshold, h⟩
  have hfalse :=
    (h { sampleWallet with proof_staleness := threshold }).1 (Nat.le_refl _)
  simp [needs_new_commitment_proof] at hfalse

/-- **C2, amended.** `needs_new_commitment_proof` returns `false` for every
wallet, whatever its `proof_staleness`: the source hard-codes the decision to
`false`, so staleness never drives a wallet refresh through this method. -/
theorem needs_new_commitment_proof_always_false (w : Wallet) :
    needs_new_commitment_proof w = false := rfl

/-- **C8.** `reblind_wallet` is deterministic: two wallets with equal
plaintext content (the circuit-wallet projection: balances, orders, fees,
public keys, blinder) and equal private shares yield identical new blinders,
new private shares, and new blinded public shares, whatever their other
fields.  The hash chain and share recomputation are pure functions. -/
theorem reblind_wallet_deterministic (hashChain : Nat → Nat → List Nat)
    (createShares : SizedCircuitWallet → List Nat → Nat → List Nat × List Nat)
    (w1 w2 : Wallet)
    (hcontent : toCircuitWallet w1 = toCircuitWallet w2)
    (hpriv : w1.private_shares = w2.private_shares) :
    (reblind_wallet hashChain createShares w1).blinder =
        (reblind_wallet hashChain createShares w2).blinder ∧
      (reblind_wallet hashChain createShares w1).private_shares =
        (reblind_wallet hashChain createShares w2).private_shares ∧
      (reblind_wallet hashChain createShares w1).blinded_public_shares =
        (reblind_wallet hashChain createShares w2).blinded_public_shares := by
  unfold reblind_wallet
  dsimp only
  rw [hcontent, hpriv]
  exact ⟨rfl, rfl, rfl⟩

/-- Witness for C8: the sample wallet and its variant (different id,
metadata, public shares, Merkle proof, staleness) reblind identically under
concrete hash-chain and share functions. -/
theorem reblind_wallet_deterministic_witness :
    (toCircuitWallet sampleWallet = toCircuitWallet sampleWalletVariant) ∧
    (sampleWallet.private_shares = sampleWalletVariant.private_shares) ∧
    ((reblind_wallet sampleHashChain sampleCreateShares sampleWallet).blinder =
        (reblind_wallet sampleHashChain sampleCreateShares sampleWalletVariant).blinder ∧
      (reblind_wallet sampleHashChain sampleCreateShares sampleWallet).private_shares =
        (reblind_wallet sampleHashChain sampleCreateShares sampleWalletVariant).private_shares ∧
      (reblind_wallet sampleHashChain sampleCreateShares sampleWallet).blinded_public_shares =
        (reblind_wallet sampleHashChain sampleCreateShares
          sampleWalletVariant).blinded_public_shares) :=
  ⟨rfl, rfl,
    reblind_wallet_deterministic sampleHashChain sampleCreateShares
      sampleWallet sampleWalletVariant rfl rfl⟩

end WalletTypes

/-! ### C4 theorems -/

namespace Heartbeat

/-- Wrapping `u64` subtraction agrees with truncated subtraction in range. -/
lemma u64Sub_eq (a b : Nat) (h : b ≤ a) (h2 : a - b < 2 ^ 64) :
    u64Sub a b = a - b := by
  unfold u64Sub
  omega

/-- **C4.** For every peer `p` recorded in the expiry invisibility cache at
time `t`, an `add_new_peer` attempt at time `t'` within
`EXPIRY_INVISIBILITY_WINDOW` of `t` returns `false` and leaves the state
(in particular the known-peer index) unchanged; once the window has elapsed,
the attempt returns `true` and (when `p` is not yet indexed) re-adds `p`. -/
theorem expired_peer_invisible (st : PeerIndexState) (p : PeerId)
    (info : PeerInfo) (t t' : Nat)
    (hcache : st.peer_expiry_cache p = some t)
    (hle : t ≤ t') :
    (t' - t ≤ EXPIRY_INVISIBILITY_WINDOW_MS / 1000 →
      add_new_peer t' p info st = (false, st)) ∧
    (EXPIRY_INVISIBILITY_WINDOW_MS / 1000 < t' - t → t' - t < 2 ^ 64 →
      st.known_peer_info p = none →
      (add_new_peer t' p info st).1 = true ∧
        (add_new_peer t' p info st).2.known_peer_info p =
          some { info with last_heartbeat := t' }) := by
  constructor
  · intro hwin
    have hwin10 : t' - t ≤ 10 := by
      simpa [EXPIRY_INVISIBILITY_WINDOW_MS] using hwin
    unfold add_new_peer
    rw [hcache]
    dsimp only
    rw [u64Sub_eq t' t hle (by omega), if_pos hwin]
  · intro hgt hlt hvac
    have hne : ¬(u64Sub t' t ≤ EXPIRY_INVISIBILITY_WINDOW_MS / 1000) := by
      rw [u64Sub_eq t' t hle hlt]
      exact Nat.not_le.mpr hgt
    have heq : add_new_peer t' p info st =
        (true,
          { st with
            known_peer_info :=
              Function.update st.known_peer_info p
                (some { info with last_heartbeat := t' })
            peer_expiry_cache := Function.update st.peer_expiry_cache p none
            outbound := st.outbound ++ [{ peer_id := p, address := info.addr }] }) := by
      unfold add_new_peer
      rw [hcache]
      dsimp only
      rw [if_neg hne]
      dsimp only
      rw [hvac]
    rw [heq]
    exact ⟨rfl, by simp⟩

/-- Witness for C4: peer 8 was expired at time 100; at time 105 a heartbeat
cannot re-add it, at time 200 it can. -/
theorem expired_peer_invisible_witness :
    (samplePeerState.peer_expiry_cache 8 = some 100) ∧
    add_new_peer 105 8 { addr := 55, last_heartbeat := 0 } samplePeerState =
      (false, samplePeerState) ∧
    (add_new_peer 200 8 { addr := 55, last_heartbeat := 0 } samplePeerState).1 = true :=
  ⟨rfl,
    (expired_peer_invisible samplePeerState 8 { addr := 55, last_heartbeat := 0 }
      100 105 rfl (by decide)).1 (by decide),
    ((expired_peer_invisible samplePeerState 8 { addr := 55, last_heartbeat := 0 }
      100 200 rfl (by decide)).2 (by decide) (by decide) rfl).1⟩

end Heartbeat

/-! ### C1 theorems -/

namespace GossipServer

open OrderBook

/-- `new_order` indexes the order record under its own id. -/
lemma new_order_orders_self (order : NetworkOrder) (st : ApplicatorState) :
    (new_order order st).orders order.id = some order := by
  unfold new_order add_order_with_tx
  cases h : read_order_info order.id (write_order_priority_with_tx order st) <;>
    simp [h, write_order_info, Function.update_same]

/-- Attaching a validity proof to an order stored under its own id, whose
nullifier already matches the proof's, marks it `Verified` with the proof
attached. -/
lemma add_validity_proof_verified (order_id : OrderIdentifier)
    (bundle : OrderValidityProofBundle) (st2 : ApplicatorState)
    (o : NetworkOrder)
    (hread : st2.orders order_id = some o) (hid : o.id = order_id)
    (hnul : o.public_share_nullifier =
      bundle.reblind_proof.statement.original_shares_nullifier) :
    ∃ st', add_order_validity_proof order_id bundle st2 = .ok st' ∧
      st'.orders order_id = some { o with
        state := .Verified
        public_share_nullifier :=
          bundle.reblind_proof.statement.original_shares_nullifier
        validity_proofs := some bundle } := by
  have hif : (if o.public_share_nullifier ≠
        bundle.reblind_proof.statement.original_shares_nullifier then
      update_order_nullifier order_id o.public_share_nullifier
        bundle.reblind_proof.statement.original_shares_nullifier st2
    else st2) = st2 := by
    rw [hnul]
    simp
  refine ⟨?_, ?_, ?_⟩
  · exact
      { write_order_info
          { o with
            state := .Verified
            public_share_nullifier :=
              bundle.reblind_proof.statement.original_shares_nullifier
            validity_proofs := some bundle } st2 with
        bus := st2.bus ++ [.OrderStateChange
          { o with
            state := .Verified
            public_share_nullifier :=
              bundle.reblind_proof.statement.original_shares_nullifier
            validity_proofs := some bundle }] }
  · simp only [add_order_validity_proof, attach_validity_proof_with_tx,
      read_order_info_unchecked, read_order_info, hread, hif, Bind.bind,
      Except.bind, Pure.pure, Except.pure, write_order_info]
    rw [hid]
    simp [Function.update_same]
  · simp [write_order_info, hid, Function.update_same]

/-- **C1, amended.** An invalid historical Merkle root is only logged by
`verify_validity_proofs`: whatever boolean the chain returns for the root
check, verification succeeds whenever the commitment link, the nullifier
check and the two proof verifications pass, and the handler still
transitions the order to `Verified` for a sender outside the local
cluster. -/
theorem verify_succeeds_despite_invalid_root (env : ChainAndVerifier)
    (bundle : OrderValidityProofBundle) (rootValid : Bool)
    (local_cluster_id order_id cluster : Nat) (st : ApplicatorState)
    (hlink : env.link_ok bundle.reblind_proof.commitment
      bundle.commitment_proof.commitment = true)
    (hnull : env.check_nullifier_unused
      bundle.reblind_proof.statement.original_shares_nullifier = .ok true)
    (hroot : env.check_merkle_root_valid
      bundle.reblind_proof.statement.merkle_root = .ok rootValid)
    (hreb : env.verify_valid_reblind bundle.reblind_proof.statement
      bundle.reblind_proof.commitment bundle.reblind_proof.proof = .ok ())
    (hcom : env.verify_valid_commitments bundle.commitment_proof.statement
      bundle.commitment_proof.commitment bundle.commitment_proof.proof = .ok ())
    (hnl : cluster ≠ local_cluster_id)
    (hnone : st.orders order_id = none) :
    verify_validity_proofs env bundle = .ok () ∧
    ∃ st', handle_new_validity_proof env local_cluster_id order_id cluster
        bundle st = .ok st' ∧
      ∃ o, st'.orders order_id = some o ∧ o.state = NetworkOrderState.Verified := by
  have hv : verify_validity_proofs env bundle = .ok () := by
    simp [verify_validity_proofs, assert_nullifier_unused, hlink, hnull, hroot,
      hreb, hcom]
  refine ⟨hv, ?_⟩
  have hloc : decide (cluster = local_cluster_id) = false := decide_eq_false hnl
  obtain ⟨st', hok, horder⟩ :=
    add_validity_proof_verified order_id bundle
      (new_order
        (networkOrderNew order_id
          bundle.reblind_proof.statement.original_shares_nullifier cluster false)
        st)
      (networkOrderNew order_id
        bundle.reblind_proof.statement.original_shares_nullifier cluster false)
      (new_order_orders_self _ _) rfl rfl
  refine ⟨st', ?_, ⟨_, horder, rfl⟩⟩
  simp only [handle_new_validity_proof, hloc, Bool.not_false, if_true, hv,
    Bind.bind, Except.bind, hnone, Option.isSome_none, hok]

/-- Witness for the amended C1: the concrete all-invalid-roots environment,
the sample bundle, and a sender in cluster 1 against local cluster 0. -/
theorem verify_succeeds_despite_invalid_root_witness :
    ((1 : Nat) ≠ (0 : Nat)) ∧
    (verify_validity_proofs invalidRootEnv sampleBundle = .ok () ∧
      ∃ st', handle_new_validity_proof invalidRootEnv 0 4 1 sampleBundle
          emptyBook = .ok st' ∧
        ∃ o, st'.orders 4 = some o ∧ o.state = NetworkOrderState.Verified) :=
  ⟨by decide,
    verify_succeeds_despite_invalid_root invalidRootEnv sampleBundle false
      0 4 1 emptyBook rfl rfl rfl rfl rfl (by decide) rfl⟩

/-- **C1, counterexample.** With the commitment link, nullifier check and
both circuit proofs passing but every Merkle root reported invalid, the
bundle still verifies (`Ok`), and a non-local-cluster proof update leaves the
order in the `Verified` state — refuting the claim that an invalid historical
root makes `verify_validity_proofs` error and blocks the transition. -/
theorem invalid_root_still_verifies :
    invalidRootEnv.check_merkle_root_valid
        sampleBundle.reblind_proof.statement.merkle_root = .ok false ∧
    verify_validity_proofs invalidRootEnv sampleBundle = .ok () ∧
    (handle_new_validity_proof invalidRootEnv 0 4 1 sampleBundle emptyBook).map
        (fun st' => (st'.orders 4).map (fun o => o.state)) =
      .ok (some NetworkOrderState.Verified) :=
  ⟨rfl, rfl, rfl⟩

end GossipServer

end Renegade
